import Mathlib

/-!
Verification development for the usbtmc Linux driver (usbtmc.c, revision 1.1).

The definitions below are a shallow embedding of the driver's message engine
(`usbtmc_write`, `usbtmc_read`), the `ABORT_BULK_IN` control procedure, the
attribute ioctls (`usbtmc_ioctl_set_attribute`, `usbtmc_ioctl_get_attribute`)
and the `INSTRUMENT_DATA` ioctl.  User buffers are byte lists, the device is an
oracle supplying bulk/control responses, and machine integers are modelled as
`Nat`/`Int` with explicit wrap where the C code can wrap.  Bulk/control
transfers are assumed to succeed exactly as long as the device oracle supplies
a response; an exhausted oracle models a failing transfer (the C code then
returns the negative errno from the USB stack).
-/

set_option maxRecDepth 4000

namespace Usbtmc

/-- Constant `USBTMC_SIZE_IOBUFFER` from usbtmc.h (header not in the sources).
Modelled from the spec: IOBUFFER = 2048 bytes. -/
def USBTMC_SIZE_IOBUFFER : Nat := 2048

/-- Constant `USBTMC_MAX_READS_TO_CLEAR_BULK_IN` from usbtmc.h (header not in the
sources). Modelled from the spec: "a configured cap, default 10". -/
def USBTMC_MAX_READS_TO_CLEAR_BULK_IN : Nat := 10

/-- Constant `USBTMC_MINOR_NUMBERS` from usbtmc.h (header not in the sources).
Modelled from the spec: registry capacity, implementation-defined. -/
def USBTMC_MINOR_NUMBERS : Int := 16

/-- Constant `USBTMC_DEFAULT_TIMEOUT` from usbtmc.h (header not in the sources), in
jiffies. Modelled from the spec: implementation-defined (e.g. 5 seconds). -/
def USBTMC_DEFAULT_TIMEOUT : Int := 500

/-- Constant `USBTMC_VERSION` (usbtmc.c line 22). -/
def USBTMC_VERSION : Int := 110

/-- Status byte constants (spec §6; used throughout usbtmc.c). -/
def USBTMC_STATUS_SUCCESS : Nat := 0x01

def USBTMC_STATUS_PENDING : Nat := 0x02

def USBTMC_STATUS_FAILED : Nat := 0x81

/-- Attribute value constants from usbtmc.h (header not in the sources).
Modelled from the spec: {ON, OFF} and {FREAD, READ} are distinct encodings of
a signed 32-bit value; the concrete numbers are not claim-relevant. -/
def USBTMC_ATTRIB_VAL_OFF : Int := 0

def USBTMC_ATTRIB_VAL_ON : Int := 1

def USBTMC_ATTRIB_VAL_FREAD : Int := 2

def USBTMC_ATTRIB_VAL_READ : Int := 3

/-- Linux errno values used by the driver. -/
def EPERM : Int := 1

def EINVAL : Int := 22

def EFAULT : Int := 14

/-- Per-device private data (`struct usbtmc_device_data`).  Only the fields
the protocol engine reads or writes are modelled; endpoint bookkeeping and
the cdev plumbing are outside the engine. -/
structure DeviceData where
  bTag : Nat
  eof : Nat
  timeout : Int
  term_char_enabled : Int
  term_char : Nat
  fread : Int
  auto_abort : Int
  add_nl_on_read : Int
  rem_nl_on_write : Int
deriving DecidableEq

/-- Field values set by `usbtmc_probe` (usbtmc.c lines 1576-1584).
`auto_abort` is never initialized by the probe function; 0 is assumed. -/
def defaultDeviceData : DeviceData :=
  { bTag := 1
    eof := 0
    timeout := USBTMC_DEFAULT_TIMEOUT
    term_char_enabled := 0
    term_char := 10
    fread := 1
    auto_abort := 0
    add_nl_on_read := 0
    rem_nl_on_write := 0 }

/-- The bTag advance performed after each bulk-out submission
(usbtmc.c lines 310-312 and 518-520): `bTag++` on a `u8`, then `bTag++`
again if the result is zero. -/
def nextBTag (b : Nat) : Nat :=
  let b1 := (b + 1) % 256
  if b1 = 0 then (b1 + 1) % 256 else b1

/-- Byte 2 of the header, `usbtmc_buffer[2] = ~bTag`, stored into a `u8`
(two's-complement byte of the C bitwise complement). -/
def bTagInverseOf (b : Nat) : Nat := 255 - b % 256

/-- One bulk-out packet as assembled in `usbtmc_buffer` and handed to
`usb_bulk_msg`.  `transferSize` is the `u32` value encoded in header bytes
4..7 at the moment they are written; `data` is the byte sequence actually
transmitted after the 12-byte header (payload plus zero padding). -/
structure OutPacket where
  msgID : Nat
  bTag : Nat
  bTagInverse : Nat
  transferSize : Nat
  attrByte : Nat
  termByte : Nat
  data : List Nat
deriving DecidableEq

/-- Result of `usbtmc_write`: the packets submitted, the return value
(`none` when the loop has not exited within the given step bound), and the
device data afterwards. -/
structure WriteResult where
  packets : List OutPacket
  retval : Option Int
  dev : DeviceData
deriving DecidableEq

/-- The `while(remaining>0)` loop of `usbtmc_write` (usbtmc.c lines 458-533).
`buf` is the user buffer (its length is `count`), `fuel` bounds the number of
iterations still allowed.  Each iteration mirrors the source order: the size
branch fixing `this_part` and byte 8, the header bytes (TransferSize from the
pre-trim `this_part`), `copy_from_user`, the trailing-newline trim, the 4-byte
zero padding, the bulk submission and the bTag advance, then
`remaining -= this_part; done += this_part` with the post-trim `this_part`. -/
def usbtmcWriteGo (buf : List Nat) : Nat → DeviceData → Nat → Nat →
    List OutPacket → WriteResult
  | 0, d, _remaining, _done, acc => ⟨acc.reverse, none, d⟩
  | fuel + 1, d, remaining, done, acc =>
    if remaining = 0 then ⟨acc.reverse, some (buf.length : Int), d⟩
    else
      let this_part :=
        if remaining > USBTMC_SIZE_IOBUFFER - 12 then USBTMC_SIZE_IOBUFFER - 12
        else remaining
      let eom : Nat := if remaining > USBTMC_SIZE_IOBUFFER - 12 then 0 else 1
      let chunk := (buf.drop done).take this_part
      let trimmed :=
        if this_part = remaining ∧ d.rem_nl_on_write = USBTMC_ATTRIB_VAL_ON ∧
            chunk.getD (this_part - 1) 0 = 10 then
          this_part - 1
        else this_part
      let padLen := if trimmed % 4 = 0 then 0 else 4 - trimmed % 4
      let pkt : OutPacket :=
        { msgID := 1
          bTag := d.bTag
          bTagInverse := bTagInverseOf d.bTag
          transferSize := this_part
          attrByte := eom
          termByte := 0
          data := chunk.take trimmed ++ List.replicate padLen 0 }
      let d' := { d with bTag := nextBTag d.bTag }
      usbtmcWriteGo buf fuel d' (remaining - trimmed) (done + trimmed) (pkt :: acc)

/-- Function `usbtmc_write` (usbtmc.c lines 429-541) for an instrument minor:
clear `eof`, then run the chunk loop with `remaining = count`. -/
def usbtmcWrite (d : DeviceData) (buf : List Nat) (fuel : Nat) : WriteResult :=
  usbtmcWriteGo buf fuel { d with eof := 0 } buf.length 0 []

/-- Value `n_characters` decoded from IN header bytes 4..7
(usbtmc.c lines 342-345). -/
def decodeNChars (r : List Nat) : Nat :=
  r.getD 4 0 + r.getD 5 0 * 256 + r.getD 6 0 * 65536 + r.getD 7 0 * 16777216

/-- One `copy_to_user(buf+done, &usbtmc_buffer[12], n_characters)` call
(usbtmc.c line 348): destination offset in the user buffer and the number of
bytes copied out of the scratch buffer starting at offset 12. -/
structure CopyRec where
  destOff : Nat
  len : Nat
deriving DecidableEq

/-- Outcome of `usbtmc_read`: the return value, or a propagated transport
error from a failing bulk transfer (the device oracle had no reply). -/
inductive ReadOutcome where
  | ok : Int → ReadOutcome
  | ioErr : ReadOutcome
deriving DecidableEq

/-- Result of `usbtmc_read`: the per-round user-space copies, whether the
`add_nl_on_read` newline byte was appended, the outcome and the device data
afterwards. -/
structure ReadResult where
  copies : List CopyRec
  nlAdded : Bool
  retval : ReadOutcome
  dev : DeviceData
deriving DecidableEq

/-- The code after the read loop (usbtmc.c lines 357-377): optionally append
one newline byte when there is still space, then set `eof` when fewer bytes
than requested were produced. -/
def finishRead (count : Nat) (d : DeviceData) (done : Nat) : ReadResult :=
  let addNl := d.add_nl_on_read = USBTMC_ATTRIB_VAL_ON ∧ done < count
  let done' := if addNl then done + 1 else done
  let d' := if done' < count then { d with eof := 1 } else d
  ⟨[], decide addNl, ReadOutcome.ok (done' : Int), d'⟩

/-- The `while(remaining>0)` loop of `usbtmc_read` (usbtmc.c lines 276-355).
Each iteration sends a `REQUEST_DEV_DEP_MSG_IN` packet (always successful in
this model), advances the bTag, then performs an IN bulk transfer whose
content comes from the device oracle `replies` (an empty oracle is a failing
transfer, returning the stack's error).  The loop decodes `n_characters`,
copies that many bytes to user space unconditionally, and clears `remaining`
exactly when `n_characters < USBTMC_SIZE_IOBUFFER`. -/
def usbtmcReadGo (count : Nat) : List (List Nat) → DeviceData → Nat → Nat →
    ReadResult
  | replies, d, remaining, done =>
    if remaining = 0 then finishRead count d done
    else
      match replies with
      | [] => ⟨[], false, ReadOutcome.ioErr, { d with bTag := nextBTag d.bTag }⟩
      | r :: rs =>
        let d1 := { d with bTag := nextBTag d.bTag }
        let n := decodeNChars r
        let remaining' := if n < USBTMC_SIZE_IOBUFFER then 0 else remaining
        let rest := usbtmcReadGo count rs d1 remaining' (done + n)
        { rest with copies := ⟨done, n⟩ :: rest.copies }

/-- Function `usbtmc_read` (usbtmc.c lines 235-377) for an instrument minor: the
FREAD/eof early return, then the chunked IN loop with `remaining = count`. -/
def usbtmcRead (d : DeviceData) (count : Nat) (replies : List (List Nat)) :
    ReadResult :=
  if d.fread ≠ 0 ∧ d.eof ≠ 0 then
    ⟨[], false, ReadOutcome.ok 0, { d with eof := 0 }⟩
  else usbtmcReadGo count replies d count 0

/-- Attribute identifiers from usbtmc.h (header not in the sources); one
constructor per case appearing in the ioctl switches of usbtmc.c, plus
`unknown` for every id hitting the `default:` branch. -/
inductive UsbtmcAttrib where
  | autoAbortOnError
  | readMode
  | timeout
  | termCharEnabled
  | termChar
  | addNlOnRead
  | remNlOnWrite
  | numInstruments
  | minorNumbers
  | sizeIoBuffer
  | defaultTimeout
  | debugMode
  | version
  | unknown
deriving DecidableEq

/-- Function `usbtmc_ioctl_set_attribute` (usbtmc.c lines 997-1080): returns the C
return code (0 or `-EINVAL`) paired with the device data afterwards.  `hz`
is the kernel `HZ` constant.  Integer division is C truncation
(`Int.tdiv`). -/
def usbtmc_ioctl_set_attribute (hz : Int) (d : DeviceData) (a : UsbtmcAttrib)
    (v : Int) : Int × DeviceData :=
  match a with
  | .autoAbortOnError =>
    if v ≠ USBTMC_ATTRIB_VAL_ON ∧ v ≠ USBTMC_ATTRIB_VAL_OFF then (-EINVAL, d)
    else (0, { d with auto_abort := v })
  | .readMode =>
    if v ≠ USBTMC_ATTRIB_VAL_FREAD ∧ v ≠ USBTMC_ATTRIB_VAL_READ then (-EINVAL, d)
    else (0, { d with fread := v })
  | .timeout =>
    if v < 0 then (-EINVAL, d)
    else (0, { d with timeout := Int.tdiv v 1000 * hz })
  | .termCharEnabled =>
    if v ≠ USBTMC_ATTRIB_VAL_ON ∧ v ≠ USBTMC_ATTRIB_VAL_OFF then (-EINVAL, d)
    else (0, { d with term_char_enabled := v })
  | .termChar =>
    if v < 0 ∨ v > 255 then (-EINVAL, d)
    else (0, { d with term_char := v.toNat })
  | .addNlOnRead =>
    if v ≠ USBTMC_ATTRIB_VAL_ON ∧ v ≠ USBTMC_ATTRIB_VAL_OFF then (-EINVAL, d)
    else (0, { d with add_nl_on_read := v })
  | .remNlOnWrite =>
    if v ≠ USBTMC_ATTRIB_VAL_ON ∧ v ≠ USBTMC_ATTRIB_VAL_OFF then (-EINVAL, d)
    else (0, { d with rem_nl_on_write := v })
  | _ => (-EINVAL, d)

/-- Function `usbtmc_ioctl_get_attribute` (usbtmc.c lines 1082-1172): returns the C
return code paired with the value written into the attribute descriptor
(0 when the call fails and leaves the descriptor untouched).  `numInst` is
the count of used minor numbers scanned from the registry. -/
def usbtmc_ioctl_get_attribute (hz : Int) (numInst : Int) (d : DeviceData)
    (a : UsbtmcAttrib) : Int × Int :=
  match a with
  | .autoAbortOnError => (0, d.auto_abort)
  | .readMode => (0, d.fread)
  | .timeout => (0, Int.tdiv d.timeout hz * 1000)
  | .numInstruments => (0, numInst)
  | .minorNumbers => (0, USBTMC_MINOR_NUMBERS)
  | .sizeIoBuffer => (0, (USBTMC_SIZE_IOBUFFER : Int))
  | .defaultTimeout => (0, Int.tdiv USBTMC_DEFAULT_TIMEOUT hz * 1000)
  | .debugMode => (0, 0)
  | .version => (0, USBTMC_VERSION)
  | .termCharEnabled => (0, d.term_char_enabled)
  | .termChar => (0, (d.term_char : Int))
  | .addNlOnRead => (0, d.add_nl_on_read)
  | .remNlOnWrite => (0, d.rem_nl_on_write)
  | .unknown => (-EINVAL, 0)

/-- Device oracle for `usbtmc_ioctl_abort_bulk_in`: the
`INITIATE_ABORT_BULK_IN` response bytes, the successive `actual` lengths
returned by the bulk-in drain reads, and the successive
`CHECK_ABORT_BULK_IN_STATUS` response buffers. -/
structure AbortInDevice where
  initResp : List Nat
  bulkActuals : List Nat
  checkResps : List (List Nat)
deriving DecidableEq

/-- Result of `usbtmc_ioctl_abort_bulk_in`: the return code (`none` when a
transfer failed and the stack's error is propagated) and the number of
bulk-in reads performed. -/
structure AbortInResult where
  ret : Option Int
  bulkReads : Nat
deriving DecidableEq

/-- The first drain loop of `usbtmc_ioctl_abort_bulk_in`
(usbtmc.c lines 616-639): `do { read; n++ } while (actual==max_size &&
n<USBTMC_MAX_READS_TO_CLEAR_BULK_IN)`.  Returns the final `actual`, the
remaining oracle and the final `n`; `none` in the first slot is a failing
bulk read. -/
def drainShort : List Nat → Nat → Nat → Option Nat × List Nat × Nat
  | [], _, n => (none, [], n)
  | a :: rest, maxSize, n =>
    if a = maxSize ∧ n + 1 < USBTMC_MAX_READS_TO_CLEAR_BULK_IN then
      drainShort rest maxSize (n + 1)
    else (some a, rest, n + 1)

/-- The second drain loop of `usbtmc_ioctl_abort_bulk_in`
(usbtmc.c lines 685-708): the loop condition is the ASSIGNMENT
`(actual=max_size)&&(n<USBTMC_MAX_READS_TO_CLEAR_BULK_IN)`, so the read's
actual length is discarded, the loop runs on `max_size ≠ 0` until the
iteration cap, and `actual` holds `max_size` when the loop exits. -/
def drainAssign : List Nat → Nat → Nat → Option Nat × List Nat × Nat
  | [], _, n => (none, [], n)
  | _a :: rest, maxSize, n =>
    if maxSize ≠ 0 ∧ n + 1 < USBTMC_MAX_READS_TO_CLEAR_BULK_IN then
      drainAssign rest maxSize (n + 1)
    else (some maxSize, rest, n + 1)

/-- The `CHECK_ABORT_BULK_IN_STATUS` polling loop of
`usbtmc_ioctl_abort_bulk_in` (usbtmc.c lines 650-718), consuming one check
response per poll.  On PENDING with byte 1 equal to 1 it runs `drainAssign`
and then tests `actual==max_size` (usbtmc.c line 710). -/
def abortInPoll (maxSize : Nat) : List (List Nat) → List Nat → Nat → Nat →
    AbortInResult
  | [], _, _, reads => ⟨none, reads⟩
  | c :: cs, acts, n, reads =>
    if c.getD 0 0 = USBTMC_STATUS_SUCCESS then ⟨some 0, reads⟩
    else if c.getD 0 0 ≠ USBTMC_STATUS_PENDING then ⟨some (-EPERM), reads⟩
    else if c.getD 1 0 = 1 then
      match drainAssign acts maxSize n with
      | (none, _, n') => ⟨none, reads + (n' - n)⟩
      | (some actual, rest, n') =>
        if actual = maxSize then ⟨some (-EPERM), reads + (n' - n)⟩
        else abortInPoll maxSize cs rest n' (reads + (n' - n))
    else abortInPoll maxSize cs acts n reads

/-- Function `usbtmc_ioctl_abort_bulk_in` (usbtmc.c lines 543-719): INITIATE, the
FAILED early-out, the wMaxPacketSize lookup (`maxSize`, 0 meaning the lookup
failed), the first drain with its cap check, then the status polling loop. -/
def usbtmc_ioctl_abort_bulk_in (dev : AbortInDevice) (maxSize : Nat) :
    AbortInResult :=
  let st := dev.initResp.getD 0 0
  if st = USBTMC_STATUS_FAILED then ⟨some 0, 0⟩
  else if st ≠ USBTMC_STATUS_SUCCESS then ⟨some (-EPERM), 0⟩
  else if maxSize = 0 then ⟨some (-EPERM), 0⟩
  else
    match drainShort dev.bulkActuals maxSize 0 with
    | (none, _, n1) => ⟨none, n1⟩
    | (some a, rest, n1) =>
      if a = maxSize then ⟨some (-EPERM), n1⟩
      else abortInPoll maxSize dev.checkResps rest 0 n1

/-- The three device strings of an attached instrument, as C strings
(`strlen` is the list length). -/
structure InstrumentStrings where
  manufacturer : List Nat
  product : List Nat
  serial : List Nat
deriving DecidableEq

/-- What `usbtmc_ioctl_instrument_data` copies into the user structure:
for each output string the bytes taken from the corresponding device string,
plus the length argument passed to `copy_to_user` for the serial number. -/
structure InstrumentDataOut where
  mfrCopied : List Nat
  prodCopied : List Nat
  serialCopied : List Nat
  serialReqLen : Nat
deriving DecidableEq

/-- Function `usbtmc_ioctl_instrument_data` (usbtmc.c lines 1350-1400): `none` is the
`-EINVAL` return for an unused minor number.  The manufacturer and product
lengths are `strlen` of their own strings capped at 199; the serial-number
length is computed from `strlen(p_device->product)` (usbtmc.c line 1391). -/
def usbtmc_ioctl_instrument_data (inUse : Bool) (dev : InstrumentStrings) :
    Option InstrumentDataOut :=
  if ¬ inUse then none
  else
    let n1 := if dev.manufacturer.length > 199 then 199 else dev.manufacturer.length
    let n2 := if dev.product.length > 199 then 199 else dev.product.length
    let n3 := if dev.product.length > 199 then 199 else dev.product.length
    some ⟨dev.manufacturer.take n1, dev.product.take n2, dev.serial.take n3, n3⟩

/-- Session with `rem_nl_on_write` enabled, as produced by
`SET_ATTRIBUTE(REM_NL_ON_WRITE, ON)` on a fresh session. -/
def c1dev : DeviceData :=
  { defaultDeviceData with rem_nl_on_write := USBTMC_ATTRIB_VAL_ON }

/-- The 4-byte user payload `"ABC\n"`. -/
def c1buf : List Nat := [65, 66, 67, 10]

/-- Device state inside the write loop on `c1buf`: `eof` cleared,
`rem_nl_on_write` on, bTag at `b`. -/
def c1state (b : Nat) : DeviceData := { c1dev with bTag := b, eof := 0 }

/-- A 4096-byte user buffer (bytes 0x41). -/
def c8buf : List Nat := List.replicate 4096 65

/-- An IN reply whose header bytes 4..7 encode `n_characters = 2036`. -/
def r2036 : List Nat := [0, 0, 0, 0, 244, 7, 0, 0]

/-- An IN reply whose header bytes 4..7 encode `n_characters = 5000`. -/
def r5000 : List Nat := [0, 0, 0, 0, 136, 19, 0, 0]

/-- An IN reply whose header bytes 4..7 encode `n_characters = 100`. -/
def r100 : List Nat := [0, 0, 0, 0, 100, 0, 0, 0]

/-- Abort-bulk-in scenario: INITIATE answers SUCCESS, every bulk-in drain
read returns a short packet of 100 bytes (one for the first drain, ten more
available for the second), and the status polls answer PENDING with
bmAbortBulkIn bit 0 set, then SUCCESS. -/
def dev5 : AbortInDevice :=
  ⟨[1, 1], 100 :: List.replicate 10 100, [[2, 1], [1, 0]]⟩

/-- Instrument with a 3-byte manufacturer string, a 1-byte product string
and a 9-byte serial-number string. -/
def c7strs : InstrumentStrings :=
  ⟨[77, 70, 82], [80], [83, 69, 82, 73, 65, 76, 49, 50, 51]⟩

/-- C2: the claim asserts the read path never copies more bytes to user
space than the caller asked for, and only bytes that fit the scratch buffer.
`usbtmc_read` copies `n_characters` bytes with no bound check
(usbtmc.c line 348): a 100-byte read against a reply header announcing
2036 characters copies 2036 bytes (overflowing the caller's buffer and
returning 2036), and a header announcing 5000 characters makes the copy
read past the 2048-byte scratch buffer. -/
theorem c2_read_unbounded_copy :
    ((usbtmcRead defaultDeviceData 100 [r2036]).copies = [⟨0, 2036⟩] ∧
      (usbtmcRead defaultDeviceData 100 [r2036]).retval = ReadOutcome.ok 2036 ∧
      100 < 2036) ∧
    ((usbtmcRead defaultDeviceData 100 [r5000]).copies = [⟨0, 5000⟩] ∧
      decodeNChars r5000 = 5000 ∧ USBTMC_SIZE_IOBUFFER - 12 < 5000) := by
  decide

/-- C3 counterexample: the claim asserts a zero-byte write emits exactly one
OUT packet with TransferSize 0 and EOM set; in the code `remaining = 0`
skips the `while(remaining>0)` loop entirely, so no packet is emitted and
the return value is 0. -/
theorem c3_zero_write_counterexample :
    (usbtmcWrite defaultDeviceData [] 1).packets = [] ∧
    (usbtmcWrite defaultDeviceData [] 1).retval = some 0 := by
  decide

/-- C3 amended: a write of zero bytes emits no OUT bulk packet at all and
returns 0; the only session change is the cleared `eof` flag. -/
theorem c3_zero_write_amended (d : DeviceData) (fuel : Nat) :
    usbtmcWrite d [] (fuel + 1) = ⟨[], some 0, { d with eof := 0 }⟩ :=
  rfl

/-- C5: the claim asserts the drain loop run after a PENDING status with
byte 1 bit 0 set stops at the first short packet and fails only at the
iteration cap.  The loop condition at usbtmc.c line 708 is the assignment
`(actual=max_size)` rather than a comparison, so with wMaxPacketSize 512 and
every drain read returning a short 100-byte packet the code still reads
until the 10-read cap (11 bulk reads in total including the first drain) and
returns `-EPERM`, even though the next status poll would have answered
SUCCESS. -/
theorem c5_abort_in_drain_bug :
    usbtmc_ioctl_abort_bulk_in dev5 512 = ⟨some (-EPERM), 11⟩ ∧
    (∀ a ∈ dev5.bulkActuals, a < 512) ∧
    (dev5.checkResps.getD 1 []).getD 0 0 = USBTMC_STATUS_SUCCESS := by
  decide

/-- C7: the claim asserts the serial-number copy length is
`min (strlen serial) 199`.  The code computes it from
`strlen(p_device->product)` (usbtmc.c line 1391): with a 1-byte product
string and a 9-byte serial string only 1 serial byte is copied. -/
theorem c7_serial_length_bug :
    usbtmc_ioctl_instrument_data true c7strs =
      some ⟨[77, 70, 82], [80], [83], 1⟩ ∧
    min c7strs.serial.length 199 = 9 ∧ (1 : Nat) ≠ 9 := by
  decide

/-- Unfolding of one write-loop iteration in the capped branch
(`remaining > IOBUFFER-12`): EOM clear, TransferSize `IOBUFFER-12`, no trim
(the chunk is not the last one), no padding (2036 is 4-byte aligned). -/
theorem writeGo_step_big (buf : List Nat) (fuel : Nat) (d : DeviceData)
    (rem done : Nat) (acc : List OutPacket)
    (h : rem > USBTMC_SIZE_IOBUFFER - 12) :
    usbtmcWriteGo buf (fuel + 1) d rem done acc =
      usbtmcWriteGo buf fuel { d with bTag := nextBTag d.bTag }
        (rem - (USBTMC_SIZE_IOBUFFER - 12)) (done + (USBTMC_SIZE_IOBUFFER - 12))
        ({ msgID := 1
           bTag := d.bTag
           bTagInverse := bTagInverseOf d.bTag
           transferSize := USBTMC_SIZE_IOBUFFER - 12
           attrByte := 0
           termByte := 0
           data := (buf.drop done).take (USBTMC_SIZE_IOBUFFER - 12) } :: acc) := by
  have h0 : ¬ rem = 0 := by simp [USBTMC_SIZE_IOBUFFER] at h ⊢; omega
  have hne : ¬ (USBTMC_SIZE_IOBUFFER - 12 = rem) := by
    simp [USBTMC_SIZE_IOBUFFER] at h ⊢; omega
  simp only [usbtmcWriteGo, if_neg h0, if_pos h]
  rw [if_neg (by exact fun hc => hne hc.1)]
  simp [USBTMC_SIZE_IOBUFFER, List.take_take]

/-- Unfolding of one write-loop iteration in the final branch
(`0 < remaining ≤ IOBUFFER-12`) for a session with `rem_nl_on_write` not ON:
EOM set, TransferSize `remaining`, no trim, zero padding to a 4-byte
boundary. -/
theorem writeGo_step_small (buf : List Nat) (fuel : Nat) (d : DeviceData)
    (rem done : Nat) (acc : List OutPacket) (h0 : ¬ rem = 0)
    (h : ¬ rem > USBTMC_SIZE_IOBUFFER - 12)
    (hoff : d.rem_nl_on_write ≠ USBTMC_ATTRIB_VAL_ON) :
    usbtmcWriteGo buf (fuel + 1) d rem done acc =
      usbtmcWriteGo buf fuel { d with bTag := nextBTag d.bTag } 0 (done + rem)
        ({ msgID := 1
           bTag := d.bTag
           bTagInverse := bTagInverseOf d.bTag
           transferSize := rem
           attrByte := 1
           termByte := 0
           data := (buf.drop done).take rem ++
             List.replicate (if rem % 4 = 0 then 0 else 4 - rem % 4) 0 } :: acc) := by
  simp only [usbtmcWriteGo, if_neg h0, if_neg h]
  rw [if_neg (by exact fun hc => hoff hc.2.1)]
  simp [List.take_take]

/-- Exit of the write loop with `remaining = 0` at the last fuel step. -/
theorem writeGo_done1 (buf : List Nat) (d : DeviceData) (done : Nat)
    (acc : List OutPacket) :
    usbtmcWriteGo buf 1 d 0 done acc =
      ⟨acc.reverse, some (buf.length : Int), d⟩ := rfl

/-- Symbolic run of a 4096-byte write on a session with bTag 1 and
`rem_nl_on_write` not ON: three packets, bTags 1, 2, 3, TransferSize
2036, 2036, 24, EOM 0, 0, 1, payloads the three chunks of the user
buffer with no padding, return value 4096. -/
theorem write4096_eval (d : DeviceData) (buf : List Nat)
    (h : buf.length = 4096) (hb : d.bTag = 1)
    (hoff : d.rem_nl_on_write ≠ USBTMC_ATTRIB_VAL_ON) :
    usbtmcWrite d buf 4 =
      ⟨[⟨1, 1, 254, 2036, 0, 0, buf.take 2036⟩,
        ⟨1, 2, 253, 2036, 0, 0, (buf.drop 2036).take 2036⟩,
        ⟨1, 3, 252, 24, 1, 0, (buf.drop 4072).take 24⟩],
       some 4096, { d with eof := 0, bTag := 4 }⟩ := by
  rw [usbtmcWrite, h]
  show usbtmcWriteGo buf (3 + 1) { d with eof := 0 } 4096 0 [] = _
  rw [writeGo_step_big buf 3 _ 4096 0 [] (by norm_num [USBTMC_SIZE_IOBUFFER])]
  norm_num [USBTMC_SIZE_IOBUFFER, hb, bTagInverseOf, nextBTag]
  show usbtmcWriteGo buf (2 + 1) _ 2060 2036 _ = _
  rw [writeGo_step_big buf 2 _ 2060 2036 _ (by norm_num [USBTMC_SIZE_IOBUFFER])]
  norm_num [USBTMC_SIZE_IOBUFFER, bTagInverseOf, nextBTag]
  show usbtmcWriteGo buf (1 + 1) _ 24 4072 _ = _
  rw [writeGo_step_small buf 1
    ⟨3, 0, d.timeout, d.term_char_enabled, d.term_char, d.fread,
      d.auto_abort, d.add_nl_on_read, d.rem_nl_on_write⟩ 24 4072 _
    (by norm_num) (by norm_num [USBTMC_SIZE_IOBUFFER]) hoff]
  norm_num [USBTMC_SIZE_IOBUFFER, bTagInverseOf, nextBTag]
  rw [writeGo_done1, h]
  norm_num

/-- C8 counterexample: the claim asserts a 4096-byte write is emitted as two
packets with TransferSize 2036 and 2060.  The chunk capacity is
`IOBUFFER - 12 = 2036` bytes for every chunk, so the code emits three
packets. -/
theorem c8_chunked_write_counterexample :
    (usbtmcWrite defaultDeviceData c8buf 4).packets.length = 3 := by
  rw [write4096_eval defaultDeviceData c8buf
    (by rw [c8buf, List.length_replicate]) rfl (by decide)]
  rfl

/-- C8 amended: a 4096-byte write of a buffer `buf` on a fresh session
(bTag 1, `rem_nl_on_write` off) emits exactly three OUT packets, with bTags
1, 2, 3, TransferSize 2036, 2036, 24, EOM clear on the first two and set on
the third, payloads the chunks `buf[0..2036)`, `buf[2036..4072)`,
`buf[4072..4096)` of lengths 2036, 2036, 24 with no padding added (every
packet is already 4-byte aligned), and return value 4096. -/
theorem c8_chunked_write_amended (d : DeviceData) (buf : List Nat)
    (h : buf.length = 4096) (hb : d.bTag = 1)
    (hoff : d.rem_nl_on_write ≠ USBTMC_ATTRIB_VAL_ON) :
    usbtmcWrite d buf 4 =
      ⟨[⟨1, 1, 254, 2036, 0, 0, buf.take 2036⟩,
        ⟨1, 2, 253, 2036, 0, 0, (buf.drop 2036).take 2036⟩,
        ⟨1, 3, 252, 24, 1, 0, (buf.drop 4072).take 24⟩],
       some 4096, { d with eof := 0, bTag := 4 }⟩ ∧
    ((usbtmcWrite d buf 4).packets.map (fun p => p.data.length)
      = [2036, 2036, 24]) ∧
    (∀ p ∈ (usbtmcWrite d buf 4).packets, (12 + p.data.length) % 4 = 0) := by
  have he := write4096_eval d buf h hb hoff
  refine ⟨he, ?_, ?_⟩
  · rw [he]
    simp [List.length_take, List.length_drop, h]
  · rw [he]
    intro p hp
    simp only [List.mem_cons, List.not_mem_nil, or_false] at hp
    rcases hp with hp | hp | hp <;> subst hp <;>
      simp [List.length_take, List.length_drop, h]

/-- C8 witness: the amended theorem applied to the concrete 4096-byte
buffer `c8buf` on a fresh session. -/
theorem c8_chunked_write_amended_witness :
    c8buf.length = 4096 ∧ defaultDeviceData.bTag = 1 ∧
    ((usbtmcWrite defaultDeviceData c8buf 4).packets.map
      (fun p => p.data.length) = [2036, 2036, 24]) :=
  ⟨by rw [c8buf, List.length_replicate], rfl,
    (c8_chunked_write_amended defaultDeviceData c8buf
      (by rw [c8buf, List.length_replicate]) rfl (by decide)).2.1⟩

/-- Once the write loop on `c1buf` reaches `remaining = 1, done = 3`, each
iteration trims `this_part` from 1 to 0 (the only remaining byte is the
newline), subtracts 0 from `remaining`, and repeats: the loop never exits,
whatever the step bound and the current bTag. -/
theorem writeGo_c1_stuck :
    ∀ (fuel b : Nat) (acc : List OutPacket),
      (usbtmcWriteGo c1buf fuel (c1state b) 1 3 acc).retval = none := by
  intro fuel
  induction fuel with
  | zero => intro b acc; rfl
  | succ n ih => intro b acc; exact ih (nextBTag b) _

/-- C1: the claim asserts the `rem_nl_on_write` write of `"ABC\n"`
terminates, emits a final chunk whose TransferSize equals the trimmed length
3, and returns 4.  In the code the TransferSize header bytes are written
before the trim (so the first packet says TransferSize 4 while carrying
payload `"ABC"` plus one padding byte), and `remaining -= this_part` uses
the trimmed length, so `remaining` sticks at 1 and the loop never returns:
every further iteration emits a degenerate packet with TransferSize 1 and
no payload. -/
theorem c1_rem_nl_write_bug :
    (∀ fuel, (usbtmcWrite c1dev c1buf fuel).retval = none) ∧
    (usbtmcWrite c1dev c1buf 3).packets.take 2 =
      [⟨1, 1, 254, 4, 1, 0, [65, 66, 67, 0]⟩,
       ⟨1, 2, 253, 1, 1, 0, []⟩] := by
  constructor
  · intro fuel
    cases fuel with
    | zero => rfl
    | succ n => exact writeGo_c1_stuck n 2 _
  · decide

/-- C4: the claim asserts SET_ATTRIBUTE(TIMEOUT, 2500) followed by
GET_ATTRIBUTE(TIMEOUT) returns 2500 independently of the storage unit.  The
code stores `value/1000*HZ` and reads back `timeout/HZ*1000` with truncating
integer division (usbtmc.c lines 1032-1033 and 1107-1108), so the round
trip returns 2000 for every positive HZ. -/
theorem c4_timeout_roundtrip_bug (hz : Int) (hhz : 0 < hz) (d : DeviceData)
    (numInst : Int) :
    (usbtmc_ioctl_set_attribute hz d .timeout 2500).1 = 0 ∧
    usbtmc_ioctl_get_attribute hz numInst
        (usbtmc_ioctl_set_attribute hz d .timeout 2500).2 .timeout
      = (0, 2000) := by
  have h1 : ¬ ((2500 : Int) < 0) := by norm_num
  constructor
  · simp [usbtmc_ioctl_set_attribute, h1]
  · simp only [usbtmc_ioctl_set_attribute, if_neg h1,
      usbtmc_ioctl_get_attribute]
    have h2 : Int.tdiv 2500 1000 = 2 := by decide
    rw [h2, Int.mul_tdiv_cancel 2 (by omega)]
    norm_num

/-- C4 witness: the round trip evaluated at HZ = 250 on a fresh session
yields 2000 milliseconds. -/
theorem c4_timeout_roundtrip_bug_witness :
    (0 : Int) < 250 ∧
    usbtmc_ioctl_get_attribute 250 0
        (usbtmc_ioctl_set_attribute 250 defaultDeviceData .timeout 2500).2
        .timeout = (0, 2000) :=
  ⟨by norm_num,
    (c4_timeout_roundtrip_bug 250 (by norm_num) defaultDeviceData 0).2⟩

/-- A read loop entered with `remaining ≠ 0` that completes without a
transport error performed at least one IN round. -/
theorem readGo_copies_nonempty (count : Nat) (rs : List (List Nat))
    (d : DeviceData) (rem done : Nat) (v : Int) (hrem : rem ≠ 0)
    (hok : (usbtmcReadGo count rs d rem done).retval = ReadOutcome.ok v) :
    (usbtmcReadGo count rs d rem done).copies ≠ [] := by
  cases rs with
  | nil => simp [usbtmcReadGo, hrem] at hok
  | cons r rs' => simp [usbtmcReadGo, hrem]

/-- Exit of the read loop when `remaining` has been cleared. -/
theorem readGo_zero (count : Nat) (rs : List (List Nat)) (d : DeviceData)
    (done : Nat) :
    usbtmcReadGo count rs d 0 done = finishRead count d done := by
  cases rs <;> simp [usbtmcReadGo]

/-- Shape of a completed read loop: every IN round except the last decoded
`n_characters ≥ IOBUFFER` (and only therefore continued), and the final
round decoded `n_characters < IOBUFFER`. -/
theorem readGo_shape (rs : List (List Nat)) :
    ∀ (count : Nat) (d : DeviceData) (rem done : Nat) (v : Int),
    (usbtmcReadGo count rs d rem done).retval = ReadOutcome.ok v →
    (∀ c ∈ (usbtmcReadGo count rs d rem done).copies.dropLast,
        USBTMC_SIZE_IOBUFFER ≤ c.len) ∧
    (∀ c, (usbtmcReadGo count rs d rem done).copies.getLast? = some c →
        c.len < USBTMC_SIZE_IOBUFFER) := by
  induction rs with
  | nil =>
    intro count d rem done v hok
    by_cases hrem : rem = 0
    · simp [usbtmcReadGo, hrem, finishRead]
    · simp [usbtmcReadGo, hrem] at hok
  | cons r rs' ih =>
    intro count d rem done v hok
    by_cases hrem : rem = 0
    · simp [usbtmcReadGo, hrem, finishRead]
    · by_cases hn : decodeNChars r < USBTMC_SIZE_IOBUFFER
      · simp only [usbtmcReadGo, if_neg hrem, if_pos hn, readGo_zero,
          finishRead]
        constructor
        · simp
        · intro c hc
          simp only [List.getLast?_singleton, Option.some.injEq] at hc
          subst hc
          exact hn
      · simp only [usbtmcReadGo, if_neg hrem] at hok ⊢
        simp only [if_neg hn] at hok ⊢
        have hok' :
            (usbtmcReadGo count rs' { d with bTag := nextBTag d.bTag } rem
              (done + decodeNChars r)).retval = ReadOutcome.ok v := hok
        have hne := readGo_copies_nonempty count rs'
          { d with bTag := nextBTag d.bTag } rem (done + decodeNChars r) v
          hrem hok'
        obtain ⟨c0, cs, hc⟩ := List.exists_cons_of_ne_nil hne
        have hih := ih count { d with bTag := nextBTag d.bTag } rem
          (done + decodeNChars r) v hok'
        rw [hc] at hih ⊢
        constructor
        · intro c hcmem
          rw [List.dropLast_cons₂] at hcmem
          rcases List.mem_cons.mp hcmem with h | h
          · subst h; exact Nat.not_lt.mp hn
          · exact hih.1 c h
        · intro c hlast
          rw [List.getLast?_cons_cons] at hlast
          exact hih.2 c hlast

/-- The IN rounds the read loop performs do not depend on the destination
size: for any two nonzero `remaining` values and any two counts, the same
replies produce the same sequence of user-space copies. -/
theorem readGo_copies_count (rs : List (List Nat)) :
    ∀ (c1 c2 : Nat) (d : DeviceData) (r1 r2 done : Nat),
    r1 ≠ 0 → r2 ≠ 0 →
    (usbtmcReadGo c1 rs d r1 done).copies =
      (usbtmcReadGo c2 rs d r2 done).copies := by
  induction rs with
  | nil =>
    intro c1 c2 d r1 r2 done h1 h2
    simp [usbtmcReadGo, h1, h2]
  | cons r rs' ih =>
    intro c1 c2 d r1 r2 done h1 h2
    by_cases hn : decodeNChars r < USBTMC_SIZE_IOBUFFER
    · simp only [usbtmcReadGo, if_neg h1, if_neg h2, if_pos hn, readGo_zero,
        finishRead]
    · simp only [usbtmcReadGo, if_neg h1, if_neg h2, if_neg hn]
      exact congrArg (List.cons ⟨done, decodeNChars r⟩)
        (ih c1 c2 _ r1 r2 _ h1 h2)

/-- C6 counterexample: the claim asserts the read loop continues whenever
`n_characters ≥ IOBUFFER-12 = 2036` and destination space remains.  With
`count = 4096` and a device announcing exactly 2036 characters (with a
second reply available), the code performs a single IN round, because its
termination test is `n_characters < IOBUFFER` (usbtmc.c line 354), not
`n_characters < IOBUFFER-12`. -/
theorem c6_read_termination_counterexample :
    (usbtmcRead defaultDeviceData 4096 [r2036, r2036]).copies.length = 1 ∧
    decodeNChars r2036 = 2036 ∧
    USBTMC_SIZE_IOBUFFER - 12 ≤ 2036 ∧ 2036 < 4096 ∧
    (usbtmcRead defaultDeviceData 4096 [r2036, r2036]).retval =
      ReadOutcome.ok 2036 := by
  decide

/-- C6 amended: after an IN round the outer loop terminates if and only if
the decoded `n_characters` is less than IOBUFFER (2048, not IOBUFFER-12):
in a completed read every round but the last decoded at least 2048 and the
last decoded less than 2048, and the remaining destination space plays no
role (any two positive counts give the same sequence of IN rounds). -/
theorem c6_read_termination_amended (d : DeviceData) (count : Nat)
    (replies : List (List Nat)) (v : Int) :
    ((usbtmcRead d count replies).retval = ReadOutcome.ok v →
      (∀ c ∈ (usbtmcRead d count replies).copies.dropLast,
          USBTMC_SIZE_IOBUFFER ≤ c.len) ∧
      (∀ c, (usbtmcRead d count replies).copies.getLast? = some c →
          c.len < USBTMC_SIZE_IOBUFFER)) ∧
    (∀ count2, 0 < count → 0 < count2 →
      (usbtmcRead d count replies).copies =
        (usbtmcRead d count2 replies).copies) := by
  constructor
  · intro hok
    by_cases he : d.fread ≠ 0 ∧ d.eof ≠ 0
    · simp [usbtmcRead, he]
    · simp only [usbtmcRead, if_neg he] at hok ⊢
      exact readGo_shape replies count d count 0 v hok
  · intro count2 h1 h2
    by_cases he : d.fread ≠ 0 ∧ d.eof ≠ 0
    · simp [usbtmcRead, he]
    · simp only [usbtmcRead, if_neg he]
      exact readGo_copies_count replies count count2 d count count2 0
        (by omega) (by omega)

/-- C6 witness: the amended theorem applied to a 100-byte read answered by
a single 100-character reply, and to the count-independence of the copies
for counts 100 and 7. -/
theorem c6_read_termination_amended_witness :
    (usbtmcRead defaultDeviceData 100 [r100]).retval = ReadOutcome.ok 100 ∧
    (∀ c, (usbtmcRead defaultDeviceData 100 [r100]).copies.getLast? = some c →
        c.len < USBTMC_SIZE_IOBUFFER) ∧
    (usbtmcRead defaultDeviceData 100 [r100]).copies =
      (usbtmcRead defaultDeviceData 7 [r100]).copies :=
  ⟨by decide,
    ((c6_read_termination_amended defaultDeviceData 100 [r100] 100).1
      (by decide)).2,
    (c6_read_termination_amended defaultDeviceData 100 [r100] 100).2 7
      (by decide) (by decide)⟩

/-- The bTag advance always lands in [1, 255]. -/
theorem nextBTag_range (b : Nat) : 1 ≤ nextBTag b ∧ nextBTag b ≤ 255 := by
  simp only [nextBTag]
  split <;> omega

/-- The write loop leaves the bTag in [1, 255] when it started there. -/
theorem writeGo_btag_range (buf : List Nat) (fuel : Nat) :
    ∀ (d : DeviceData) (rem done : Nat) (acc : List OutPacket),
    1 ≤ d.bTag → d.bTag ≤ 255 →
    1 ≤ (usbtmcWriteGo buf fuel d rem done acc).dev.bTag ∧
      (usbtmcWriteGo buf fuel d rem done acc).dev.bTag ≤ 255 := by
  induction fuel with
  | zero => intro d rem done acc h1 h2; exact ⟨h1, h2⟩
  | succ n ih =>
    intro d rem done acc h1 h2
    rw [usbtmcWriteGo]
    split
    · exact ⟨h1, h2⟩
    · exact ih _ _ _ _ (nextBTag_range d.bTag).1 (nextBTag_range d.bTag).2

/-- The read loop leaves the bTag in [1, 255] when it started there. -/
theorem readGo_btag_range (count : Nat) (rs : List (List Nat)) :
    ∀ (d : DeviceData) (rem done : Nat),
    1 ≤ d.bTag → d.bTag ≤ 255 →
    1 ≤ (usbtmcReadGo count rs d rem done).dev.bTag ∧
      (usbtmcReadGo count rs d rem done).dev.bTag ≤ 255 := by
  induction rs with
  | nil =>
    intro d rem done h1 h2
    by_cases hrem : rem = 0
    · subst hrem
      rw [readGo_zero]
      simp only [finishRead]
      split <;> split <;> exact ⟨h1, h2⟩
    · simp only [usbtmcReadGo, if_neg hrem]
      exact nextBTag_range d.bTag
  | cons r rs' ih =>
    intro d rem done h1 h2
    by_cases hrem : rem = 0
    · subst hrem
      rw [readGo_zero]
      simp only [finishRead]
      split <;> split <;> exact ⟨h1, h2⟩
    · simp only [usbtmcReadGo, if_neg hrem]
      exact ih _ _ _ (nextBTag_range d.bTag).1 (nextBTag_range d.bTag).2

/-- C9: the session bTag starts at 1, each advance increments it by one
modulo 256 skipping 0 (255 wraps to 1, so the value stays in [1, 255]),
and both the write and the read operation leave a bTag in [1, 255]
whenever they started with one. -/
theorem c9_btag_invariant :
    defaultDeviceData.bTag = 1 ∧
    (∀ b, 1 ≤ nextBTag b ∧ nextBTag b ≤ 255) ∧
    (∀ b, 1 ≤ b → b ≤ 254 → nextBTag b = b + 1) ∧
    nextBTag 255 = 1 ∧
    (∀ (d : DeviceData) (buf : List Nat) (fuel : Nat),
      1 ≤ d.bTag → d.bTag ≤ 255 →
      1 ≤ (usbtmcWrite d buf fuel).dev.bTag ∧
        (usbtmcWrite d buf fuel).dev.bTag ≤ 255) ∧
    (∀ (d : DeviceData) (count : Nat) (replies : List (List Nat)),
      1 ≤ d.bTag → d.bTag ≤ 255 →
      1 ≤ (usbtmcRead d count replies).dev.bTag ∧
        (usbtmcRead d count replies).dev.bTag ≤ 255) := by
  refine ⟨rfl, nextBTag_range, ?_, by decide, ?_, ?_⟩
  · intro b h1 h2
    simp only [nextBTag]
    split <;> omega
  · intro d buf fuel h1 h2
    exact writeGo_btag_range buf fuel { d with eof := 0 } _ _ _ h1 h2
  · intro d count replies h1 h2
    by_cases he : d.fread ≠ 0 ∧ d.eof ≠ 0
    · simp only [usbtmcRead, if_pos he]
      exact ⟨h1, h2⟩
    · simp only [usbtmcRead, if_neg he]
      exact readGo_btag_range count replies d _ _ h1 h2

/-- C9 witness: the invariant checked on a fresh session, a concrete write,
and a mid-range and wrapping bTag advance. -/
theorem c9_btag_invariant_witness :
    defaultDeviceData.bTag = 1 ∧
    nextBTag 3 = 4 ∧
    (1 ≤ (usbtmcWrite defaultDeviceData [65] 2).dev.bTag ∧
      (usbtmcWrite defaultDeviceData [65] 2).dev.bTag ≤ 255) ∧
    (1 ≤ (usbtmcRead defaultDeviceData 100 [r100]).dev.bTag ∧
      (usbtmcRead defaultDeviceData 100 [r100]).dev.bTag ≤ 255) :=
  ⟨c9_btag_invariant.1,
    c9_btag_invariant.2.2.1 3 (by decide) (by decide),
    c9_btag_invariant.2.2.2.2.1 defaultDeviceData [65] 2 (by decide)
      (by decide),
    c9_btag_invariant.2.2.2.2.2 defaultDeviceData 100 [r100] (by decide)
      (by decide)⟩

/-- C10: every failing SET_ATTRIBUTE call returns `-EINVAL` and leaves the
session exactly as it was (validation precedes every assignment), and the
calls that fail are precisely those with a read-only or unknown attribute
id, or an out-of-range value for a writable attribute. -/
theorem c10_set_attribute_invalid (hz : Int) (d : DeviceData)
    (a : UsbtmcAttrib) (v : Int) :
    ((usbtmc_ioctl_set_attribute hz d a v).1 ≠ 0 →
      usbtmc_ioctl_set_attribute hz d a v = (-EINVAL, d)) ∧
    (usbtmc_ioctl_set_attribute hz d .numInstruments v = (-EINVAL, d)) ∧
    (usbtmc_ioctl_set_attribute hz d .minorNumbers v = (-EINVAL, d)) ∧
    (usbtmc_ioctl_set_attribute hz d .sizeIoBuffer v = (-EINVAL, d)) ∧
    (usbtmc_ioctl_set_attribute hz d .defaultTimeout v = (-EINVAL, d)) ∧
    (usbtmc_ioctl_set_attribute hz d .debugMode v = (-EINVAL, d)) ∧
    (usbtmc_ioctl_set_attribute hz d .version v = (-EINVAL, d)) ∧
    (usbtmc_ioctl_set_attribute hz d .unknown v = (-EINVAL, d)) ∧
    (v ≠ USBTMC_ATTRIB_VAL_ON → v ≠ USBTMC_ATTRIB_VAL_OFF →
      usbtmc_ioctl_set_attribute hz d .autoAbortOnError v = (-EINVAL, d)) ∧
    (v ≠ USBTMC_ATTRIB_VAL_FREAD → v ≠ USBTMC_ATTRIB_VAL_READ →
      usbtmc_ioctl_set_attribute hz d .readMode v = (-EINVAL, d)) ∧
    (v < 0 → usbtmc_ioctl_set_attribute hz d .timeout v = (-EINVAL, d)) ∧
    (v ≠ USBTMC_ATTRIB_VAL_ON → v ≠ USBTMC_ATTRIB_VAL_OFF →
      usbtmc_ioctl_set_attribute hz d .termCharEnabled v = (-EINVAL, d)) ∧
    (v < 0 ∨ v > 255 →
      usbtmc_ioctl_set_attribute hz d .termChar v = (-EINVAL, d)) ∧
    (v ≠ USBTMC_ATTRIB_VAL_ON → v ≠ USBTMC_ATTRIB_VAL_OFF →
      usbtmc_ioctl_set_attribute hz d .addNlOnRead v = (-EINVAL, d)) ∧
    (v ≠ USBTMC_ATTRIB_VAL_ON → v ≠ USBTMC_ATTRIB_VAL_OFF →
      usbtmc_ioctl_set_attribute hz d .remNlOnWrite v = (-EINVAL, d)) := by
  refine ⟨?_, rfl, rfl, rfl, rfl, rfl, rfl, rfl, ?_, ?_, ?_, ?_, ?_, ?_, ?_⟩
  · intro hne
    cases a <;> simp only [usbtmc_ioctl_set_attribute] at hne ⊢ <;>
      first
        | rfl
        | (split at hne <;> simp_all)
  · intro h1 h2
    simp only [usbtmc_ioctl_set_attribute]
    rw [if_pos ⟨h1, h2⟩]
  · intro h1 h2
    simp only [usbtmc_ioctl_set_attribute]
    rw [if_pos ⟨h1, h2⟩]
  · intro h
    simp only [usbtmc_ioctl_set_attribute]
    rw [if_pos h]
  · intro h1 h2
    simp only [usbtmc_ioctl_set_attribute]
    rw [if_pos ⟨h1, h2⟩]
  · intro h
    simp only [usbtmc_ioctl_set_attribute]
    rw [if_pos h]
  · intro h1 h2
    simp only [usbtmc_ioctl_set_attribute]
    rw [if_pos ⟨h1, h2⟩]
  · intro h1 h2
    simp only [usbtmc_ioctl_set_attribute]
    rw [if_pos ⟨h1, h2⟩]

/-- C10 witness: the theorem applied to an unknown attribute id, a negative
timeout and an out-of-range boolean value, on a fresh session. -/
theorem c10_set_attribute_invalid_witness :
    usbtmc_ioctl_set_attribute 250 defaultDeviceData .unknown 7
      = (-EINVAL, defaultDeviceData) ∧
    usbtmc_ioctl_set_attribute 250 defaultDeviceData .timeout (-5)
      = (-EINVAL, defaultDeviceData) ∧
    usbtmc_ioctl_set_attribute 250 defaultDeviceData .autoAbortOnError 7
      = (-EINVAL, defaultDeviceData) :=
  ⟨(c10_set_attribute_invalid 250 defaultDeviceData .unknown
      7).2.2.2.2.2.2.2.1,
    (c10_set_attribute_invalid 250 defaultDeviceData .timeout
      (-5)).2.2.2.2.2.2.2.2.2.2.1 (by decide),
    (c10_set_attribute_invalid 250 defaultDeviceData .autoAbortOnError
      7).2.2.2.2.2.2.2.2.1 (by decide) (by decide)⟩

end Usbtmc
